import Mathlib

/-!
Verification development for the react-md UI interaction utilities:
the `GridList` sizing calculation, the tooltip interaction-mode state
machine (`useMouseState` / `useKeyboardState` / `useTouchState`), the
ripple event-handler merging (`useRippleHandlers`), and the keyboard
click polyfill (`useKeyboardClickPolyfill`).

Numbers that the source manipulates as JS floats are modelled as `ℚ`;
the integer column count is `ℤ` (`Math.ceil`).  Each event handler is
additionally given an effect-trace semantics: the chronological list of
calls it performs (the caller-supplied callback and the internal state
transitions), so that ordering claims can be stated.
-/

namespace ReactMd

/-! ## GridList sizing (`GridList.recalculate`) -/

/-- The `GridListSize` record: current number of columns and width of each cell. -/
structure GridListSize where
  columns : ℤ
  cellWidth : ℚ
deriving DecidableEq, Repr

/-- Embedding of `GridList.recalculate`:
`width = offsetWidth - containerPadding`, minus the scrollbar width when
`offsetHeight < scrollHeight`; `columns = Math.ceil(width / maxCellSize)`;
`cellWidth = width / columns`.  The DOM reads (`offsetWidth`, `offsetHeight`,
`scrollHeight`) and `getScrollbarWidth()` are parameters. -/
def recalculate (offsetWidth offsetHeight scrollHeight scrollbarWidth
    containerPadding maxCellSize : ℚ) : GridListSize :=
  let width := offsetWidth - containerPadding
  let width := if offsetHeight < scrollHeight then width - scrollbarWidth else width
  let columns : ℤ := ⌈width / maxCellSize⌉
  { cellWidth := width / (columns : ℚ), columns := columns }

/-- The effective width as the specification describes it: `containerPadding`,
and the scrollbar width when the content overflows, subtracted from
`offsetWidth`. -/
def effectiveWidth (offsetWidth offsetHeight scrollHeight scrollbarWidth
    containerPadding : ℚ) : ℚ :=
  if offsetHeight < scrollHeight then
    offsetWidth - containerPadding - scrollbarWidth
  else
    offsetWidth - containerPadding

/-! ## Tooltip interaction state machine

Transcription of the tooltip handlers of `useMouseState`, `useKeyboardState`
and `useTouchState` as a step function on the refs and state they mutate:
`initiated`, the tooltip visibility (`showTooltip`/`hideTooltip`), the three
pending `useTimeout` timers, the `touched` ref and the `isWindowBlurred` ref.
A `...TimerFire` event is the runtime invoking a timeout callback: it only
has an effect while that timeout is pending (`stop()` clears it), and firing
clears the pending flag. -/

/-- Modelled from the spec: `UserInteractionMode` is imported from
`@react-md/states/types/useModeDetection`, whose declaration is not part of
these sources; the spec lists the interaction modes as
{mouse, keyboard, touch, window, none}, with none represented as `null`. -/
inductive Mode
  | mouse
  | keyboard
  | touch
  | window
deriving DecidableEq, Repr

/-- `TooltipInitiated = UserInteractionMode | null`. -/
abbrev TooltipInitiated := Option Mode

/-- The mutable tooltip state touched by the handlers. -/
structure TooltipState where
  initiated : TooltipInitiated
  visible : Bool
  mousePending : Bool
  kbPending : Bool
  touchPending : Bool
  touched : Bool
  isWindowBlurred : Bool
deriving DecidableEq, Repr

/-- The events the tooltip handlers react to.  `keyDown` carries the key
string; `touchEnd` is the window `touchend` listener installed while the
tooltip is visible in touch mode. -/
inductive TEvent
  | mouseEnter
  | mouseLeave
  | focus
  | blur
  | keyDown (key : String)
  | touchStart
  | touchMove
  | contextMenu
  | touchEnd
  | mouseTimerFire
  | kbTimerFire
  | touchTimerFire
deriving DecidableEq, Repr

/-- One step of the tooltip state machine; each branch transcribes the
corresponding handler body (after the caller-supplied callback, which does
not touch this state). -/
def tooltipStep (s : TooltipState) (e : TEvent) : TooltipState :=
  match e with
  | .mouseEnter =>
      match s.initiated with
      | some _ => s
      | none => { s with initiated := some .mouse, mousePending := true }
  | .mouseLeave =>
      if s.initiated = some .mouse then
        { s with mousePending := false, visible := false }
      else s
  | .focus =>
      if s.isWindowBlurred then { s with isWindowBlurred := false }
      else { s with initiated := some .keyboard, kbPending := true }
  | .blur => { s with kbPending := false, visible := false }
  | .keyDown key =>
      if s.initiated = some .keyboard ∧ key = "Escape" then
        { s with kbPending := false, visible := false }
      else s
  | .touchStart => { s with touched := true, touchPending := false }
  | .touchMove => { s with touched := false }
  | .contextMenu =>
      if s.touched then { s with initiated := some .touch, visible := true }
      else s
  | .touchEnd =>
      if s.visible then { s with touchPending := true } else s
  | .mouseTimerFire =>
      if s.mousePending then
        if s.initiated = some .mouse then
          { s with mousePending := false, visible := true }
        else { s with mousePending := false }
      else s
  | .kbTimerFire =>
      if s.kbPending then
        if s.initiated = some .keyboard then
          { s with kbPending := false, visible := true }
        else { s with kbPending := false }
      else s
  | .touchTimerFire =>
      if s.touchPending then
        { s with touchPending := false, touched := false, visible := false }
      else s

/-- The initial state: nothing initiated, tooltip hidden, no pending timers. -/
def tooltipInit : TooltipState :=
  { initiated := none, visible := false, mousePending := false,
    kbPending := false, touchPending := false, touched := false,
    isWindowBlurred := false }

/-- A state in which a mouse gesture has initiated the tooltip and the mouse
show timer is pending. -/
def mouseReadyState : TooltipState :=
  { tooltipInit with initiated := some .mouse, mousePending := true }

/-- A state in which a keyboard gesture has initiated the tooltip and the
keyboard show timer is pending. -/
def kbReadyState : TooltipState :=
  { tooltipInit with initiated := some .keyboard, kbPending := true }

/-! ## Effect-trace semantics of the merged event handlers

Each merged handler is modelled as the chronological list of calls it makes:
the caller-supplied callback (when present) and the internal effects.  The
refs a handler reads (`initiated`, `isWindowBlurred`, `touched`,
`disableSpacebarClick`, `disableProgrammaticRipple`) and the DOM reads
(event key, tag name, selection, `document.activeElement`) are parameters. -/

/-- An observable call performed by a handler. -/
inductive Eff
  | userCallback
  | setInitiated (m : TooltipInitiated)
  | setEstimatedPosition
  | startTimer
  | stopTimer
  | showTooltip
  | hideTooltip
  | hoverModeEnable
  | hoverStartDisableTimer
  | setTouched (b : Bool)
  | setWindowBlurred (b : Bool)
  | selectionEmpty
  | preventDefault
  | stopPropagation
  | click
  | create
  | release
  | cancel (ease : Bool)
deriving DecidableEq, Repr

/-- The trace of invoking just the caller-supplied handler when present:
`if (callback) { callback(event) }`. -/
def userOnly (hasCb : Bool) : List Eff :=
  if hasCb then [Eff.userCallback] else []

/-- Boolean flag for the ripple lifecycle effects `create`, `release`,
`cancel`. -/
def isRippleEff : Eff → Bool
  | .create => true
  | .release => true
  | .cancel _ => true
  | _ => false

namespace Tooltip

/-- Trace of `useMouseState.handleMouseEnter`: caller callback, then if
`initiated.current !== null` return, else set initiated to mouse, set the
estimated position and start the show timer. -/
def handleMouseEnter (hasCb : Bool) (initiated : TooltipInitiated) : List Eff :=
  userOnly hasCb ++
    match initiated with
    | some _ => []
    | none => [Eff.setInitiated (some Mode.mouse), Eff.setEstimatedPosition,
               Eff.startTimer]

/-- Trace of `useMouseState.handleMouseLeave`: caller callback, then if
`initiated.current !== "mouse"` return, else stop the timer, hide the
tooltip, and start the hover-mode disable timer when hover mode is enabled. -/
def handleMouseLeave (hasCb : Bool) (initiated : TooltipInitiated)
    (isHoverModeable : Bool) : List Eff :=
  userOnly hasCb ++
    if initiated = some Mode.mouse then
      [Eff.stopTimer, Eff.hideTooltip] ++
        (if isHoverModeable then [Eff.hoverStartDisableTimer] else [])
    else []

/-- Trace of `useKeyboardState.handleFocus`: caller callback, then if the
window was blurred only reset that ref, else set initiated to keyboard, set
the estimated position and start the show timer. -/
def handleFocus (hasCb : Bool) (isWindowBlurred : Bool) : List Eff :=
  userOnly hasCb ++
    if isWindowBlurred then [Eff.setWindowBlurred false]
    else [Eff.setInitiated (some Mode.keyboard), Eff.setEstimatedPosition,
          Eff.startTimer]

/-- Trace of `useKeyboardState.handleBlur`: caller callback, then stop the
timer and hide the tooltip. -/
def handleBlur (hasCb : Bool) : List Eff :=
  userOnly hasCb ++ [Eff.stopTimer, Eff.hideTooltip]

/-- Trace of `useKeyboardState.handleKeyDown`: caller callback, then if
keyboard-initiated and the key is Escape, stop the timer and hide the
tooltip. -/
def handleKeyDown (hasCb : Bool) (initiated : TooltipInitiated)
    (key : String) : List Eff :=
  userOnly hasCb ++
    if initiated = some Mode.keyboard ∧ key = "Escape" then
      [Eff.stopTimer, Eff.hideTooltip]
    else []

/-- Trace of `useTouchState.handleTouchStart`: caller callback, then set the
`touched` ref, stop the hide timer and set the estimated position. -/
def handleTouchStart (hasCb : Bool) : List Eff :=
  userOnly hasCb ++ [Eff.setTouched true, Eff.stopTimer, Eff.setEstimatedPosition]

/-- Trace of `useTouchState.handleTouchMove`: caller callback, then clear the
`touched` ref. -/
def handleTouchMove (hasCb : Bool) : List Eff :=
  userOnly hasCb ++ [Eff.setTouched false]

/-- Trace of `useTouchState.handleContextMenu`: caller callback, then if not
touched return; else prevent the default context menu, empty a selection
inside the container, set initiated to touch and show the tooltip. -/
def handleContextMenu (hasCb : Bool) (touched : Bool)
    (selectionInTarget : Bool) : List Eff :=
  userOnly hasCb ++
    if touched then
      [Eff.preventDefault] ++
        (if selectionInTarget then [Eff.selectionEmpty] else []) ++
        [Eff.setInitiated (some Mode.touch), Eff.showTooltip]
    else []

end Tooltip

namespace Ripple

/-- Trace of the `useRippleHandlers` `onKeyDown` handler: caller callback,
then `create(event)`. -/
def onKeyDown (hasCb : Bool) : List Eff :=
  userOnly hasCb ++ [Eff.create]

/-- Trace of the `onKeyUp` handler: caller callback, then `release(event)`. -/
def onKeyUp (hasCb : Bool) : List Eff :=
  userOnly hasCb ++ [Eff.release]

/-- Trace of the `onMouseDown` handler: caller callback, then `create(event)`. -/
def onMouseDown (hasCb : Bool) : List Eff :=
  userOnly hasCb ++ [Eff.create]

/-- Trace of the `onMouseUp` handler: caller callback, then `release(event)`. -/
def onMouseUp (hasCb : Bool) : List Eff :=
  userOnly hasCb ++ [Eff.release]

/-- Trace of the `onMouseLeave` handler: caller callback, then `cancel(true)`. -/
def onMouseLeave (hasCb : Bool) : List Eff :=
  userOnly hasCb ++ [Eff.cancel true]

/-- Trace of the `onTouchStart` handler: caller callback, then `create(event)`. -/
def onTouchStart (hasCb : Bool) : List Eff :=
  userOnly hasCb ++ [Eff.create]

/-- Trace of the `onTouchMove` handler: caller callback, then `cancel(false)`. -/
def onTouchMove (hasCb : Bool) : List Eff :=
  userOnly hasCb ++ [Eff.cancel false]

/-- Trace of the `onTouchEnd` handler: caller callback, then `release(event)`. -/
def onTouchEnd (hasCb : Bool) : List Eff :=
  userOnly hasCb ++ [Eff.release]

/-- Trace of the `onClick` handler: caller callback, then if programmatic
ripples are disabled or `document.activeElement === event.currentTarget`
return, else `create(event)`. -/
def onClick (hasCb disableProgrammaticRipple activeElementIsTarget : Bool) :
    List Eff :=
  userOnly hasCb ++
    if disableProgrammaticRipple || activeElementIsTarget then []
    else [Eff.create]

/-- The `onKeyDown` field of the record returned by `useRippleHandlers`:
`disabled ? handlers.onKeyDown : onKeyDown` with
`disabled = propDisabled || disableRipple`. -/
def returnedOnKeyDown (propDisabled disableRipple hasCb : Bool) : List Eff :=
  if propDisabled || disableRipple then userOnly hasCb else onKeyDown hasCb

/-- The returned `onKeyUp` field. -/
def returnedOnKeyUp (propDisabled disableRipple hasCb : Bool) : List Eff :=
  if propDisabled || disableRipple then userOnly hasCb else onKeyUp hasCb

/-- The returned `onMouseDown` field. -/
def returnedOnMouseDown (propDisabled disableRipple hasCb : Bool) : List Eff :=
  if propDisabled || disableRipple then userOnly hasCb else onMouseDown hasCb

/-- The returned `onMouseUp` field. -/
def returnedOnMouseUp (propDisabled disableRipple hasCb : Bool) : List Eff :=
  if propDisabled || disableRipple then userOnly hasCb else onMouseUp hasCb

/-- The returned `onMouseLeave` field. -/
def returnedOnMouseLeave (propDisabled disableRipple hasCb : Bool) : List Eff :=
  if propDisabled || disableRipple then userOnly hasCb else onMouseLeave hasCb

/-- The returned `onTouchStart` field. -/
def returnedOnTouchStart (propDisabled disableRipple hasCb : Bool) : List Eff :=
  if propDisabled || disableRipple then userOnly hasCb else onTouchStart hasCb

/-- The returned `onTouchMove` field. -/
def returnedOnTouchMove (propDisabled disableRipple hasCb : Bool) : List Eff :=
  if propDisabled || disableRipple then userOnly hasCb else onTouchMove hasCb

/-- The returned `onTouchEnd` field. -/
def returnedOnTouchEnd (propDisabled disableRipple hasCb : Bool) : List Eff :=
  if propDisabled || disableRipple then userOnly hasCb else onTouchEnd hasCb

/-- The returned `onClick` field:
`disabled || disableProgrammaticRipple ? handlers.onClick : onClick`. -/
def returnedOnClick (propDisabled disableRipple disableProgrammaticRipple
    hasCb activeElementIsTarget : Bool) : List Eff :=
  if propDisabled || disableRipple || disableProgrammaticRipple then
    userOnly hasCb
  else onClick hasCb disableProgrammaticRipple activeElementIsTarget

/-- The record returned by `useRippleHandlers`, listed as the traces of its
nine event-handler fields, in field order (`onKeyDown`, `onKeyUp`,
`onMouseDown`, `onMouseUp`, `onMouseLeave`, `onTouchStart`, `onTouchMove`,
`onTouchEnd`, `onClick`). -/
def useRippleHandlers (propDisabled disableRipple disableProgrammaticRipple
    hasCb activeElementIsTarget : Bool) : List (List Eff) :=
  [returnedOnKeyDown propDisabled disableRipple hasCb,
   returnedOnKeyUp propDisabled disableRipple hasCb,
   returnedOnMouseDown propDisabled disableRipple hasCb,
   returnedOnMouseUp propDisabled disableRipple hasCb,
   returnedOnMouseLeave propDisabled disableRipple hasCb,
   returnedOnTouchStart propDisabled disableRipple hasCb,
   returnedOnTouchMove propDisabled disableRipple hasCb,
   returnedOnTouchEnd propDisabled disableRipple hasCb,
   returnedOnClick propDisabled disableRipple disableProgrammaticRipple
     hasCb activeElementIsTarget]

/-- Modelled from the spec: the ripple state machine behind the `create`,
`release` and `cancel` callbacks is not part of these sources; per the spec
a ripple instance is an ephemeral animation record created on pointer or
keyboard down, released on up, cancelled on leave, with its lifetime bounded
to a single interaction gesture. -/
inductive RipplePhase
  | active
  | released
deriving DecidableEq, Repr

/-- Modelled from the spec: the per-gesture ripple record, absent until a
down event creates it. -/
abbrev RippleState := Option RipplePhase

/-- Modelled from the spec: `create` makes the gesture's ripple record
active. -/
def create (_ : RippleState) : RippleState := some RipplePhase.active

/-- Modelled from the spec: `release` marks the gesture's ripple record, if
any, as released. -/
def release : RippleState → RippleState
  | some _ => some RipplePhase.released
  | none => none

/-- Modelled from the spec: `cancel` discards the gesture's ripple record. -/
def cancel (_ : RippleState) : RippleState := none

/-- Apply one handler effect to the gesture's ripple state; effects other
than the ripple lifecycle calls leave it unchanged. -/
def applyEff (s : RippleState) : Eff → RippleState
  | .create => create s
  | .release => release s
  | .cancel _ => cancel s
  | _ => s

/-- Apply a handler trace, in order, to the gesture's ripple state. -/
def applyTrace (s : RippleState) (t : List Eff) : RippleState :=
  t.foldl applyEff s

end Ripple

namespace Polyfill

/-- Trace of `useKeyboardClickPolyfill.handleKeyDown`: caller callback, then
unless the key is neither Enter nor Space, the target is a BUTTON, the target
is an A element with Space, or Space clicks are disabled: prevent default for
Space, stop propagation and click the target. -/
def handleKeyDown (hasCb : Bool) (key tagName : String)
    (disableSpacebarClick : Bool) : List Eff :=
  userOnly hasCb ++
    (if (key ≠ "Enter" ∧ ¬key = " ") ∨ tagName = "BUTTON" ∨
        (tagName = "A" ∧ key = " ") ∨ (key = " " ∧ disableSpacebarClick = true) then
       []
     else
       (if key = " " then [Eff.preventDefault] else []) ++
         [Eff.stopPropagation, Eff.click])

/-- The handler returned by `useKeyboardClickPolyfill`:
`disabled ? onKeyDown : handleKeyDown` (the provided `onKeyDown`, or nothing
when it was omitted). -/
def returned (hasCb disabled : Bool) (key tagName : String)
    (disableSpacebarClick : Bool) : List Eff :=
  if disabled then userOnly hasCb
  else handleKeyDown hasCb key tagName disableSpacebarClick

/-- The condition under which the claim states a synthetic click fires:
the key is Enter or Space, the tag is not BUTTON, the combination is not an
A element with Space, and not Space with `disableSpacebarClick`. -/
def clickCondition (key tagName : String) (disableSpacebarClick : Bool) : Prop :=
  (key = "Enter" ∨ key = " ") ∧ tagName ≠ "BUTTON" ∧
    ¬(tagName = "A" ∧ key = " ") ∧ ¬(key = " " ∧ disableSpacebarClick = true)

instance (key tagName : String) (d : Bool) :
    Decidable (clickCondition key tagName d) := by
  unfold clickCondition
  infer_instance

end Polyfill

end ReactMd

open ReactMd

lemma recalculate_columns (ow oh sh sw p m : ℚ) :
    (recalculate ow oh sh sw p m).columns = ⌈effectiveWidth ow oh sh sw p / m⌉ := by
  unfold recalculate effectiveWidth
  split <;> simp [sub_sub]

lemma recalculate_cellWidth (ow oh sh sw p m : ℚ) :
    (recalculate ow oh sh sw p m).cellWidth =
      effectiveWidth ow oh sh sw p / ((⌈effectiveWidth ow oh sh sw p / m⌉ : ℤ) : ℚ) := by
  unfold recalculate effectiveWidth
  split <;> simp [sub_sub]

/-- C1: for every container width, padding and max cell size (after subtracting
the padding, and the scrollbar width when the content overflows, from the
element's offsetWidth to obtain the effective width), `recalculate` sets
`columns = ⌈effectiveWidth / maxCellSize⌉` and
`cellWidth = effectiveWidth / columns`. -/
theorem c1_recalculate_columns_cellWidth (ow oh sh sw p m : ℚ) :
    (recalculate ow oh sh sw p m).columns =
      ⌈effectiveWidth ow oh sh sw p / m⌉ ∧
    (recalculate ow oh sh sw p m).cellWidth =
      effectiveWidth ow oh sh sw p /
        (((recalculate ow oh sh sw p m).columns : ℤ) : ℚ) := by
  refine ⟨recalculate_columns ow oh sh sw p m, ?_⟩
  rw [recalculate_cellWidth, recalculate_columns]

/-- C3: for a fixed effective container width `w > 0`, the column count computed
by `recalculate` is monotone non-increasing in `maxCellSize`: if
`0 < m1 ≤ m2` then the column count at `m2` is at most the one at `m1`. -/
theorem c3_columns_antitone_in_maxCellSize (ow oh sh sw p m1 m2 : ℚ)
    (hw : 0 < effectiveWidth ow oh sh sw p)
    (hm1 : 0 < m1) (h12 : m1 ≤ m2) :
    (recalculate ow oh sh sw p m2).columns ≤
      (recalculate ow oh sh sw p m1).columns := by
  rw [recalculate_columns, recalculate_columns]
  apply Int.ceil_le_ceil
  gcongr

/-- Witness for C3 at the values of the GridList test: offsetWidth 1000,
padding 16, no overflow, max cell sizes 150 and 400. -/
theorem c3_witness :
    0 < effectiveWidth 1000 50 40 10 16 ∧ (0 : ℚ) < 150 ∧ (150 : ℚ) ≤ 400 ∧
    (recalculate 1000 50 40 10 16 400).columns ≤
      (recalculate 1000 50 40 10 16 150).columns := by
  refine ⟨by norm_num [effectiveWidth], by norm_num, by norm_num, ?_⟩
  exact c3_columns_antitone_in_maxCellSize 1000 50 40 10 16 150 400
    (by norm_num [effectiveWidth]) (by norm_num) (by norm_num)

/-- C2 counterexample: in the touch flow the tooltip becomes visible directly
from the `contextmenu` handler, not after a delay: after `touchStart` then
`contextMenu` from the initial state the tooltip is visible although every
timer pending flag is still `false` and no timer-fire event ever occurred in
the trace. -/
theorem c2_counterexample :
    (tooltipStep (tooltipStep tooltipInit TEvent.touchStart)
        TEvent.contextMenu).visible = true ∧
    (tooltipStep tooltipInit TEvent.touchStart).visible = false ∧
    (tooltipStep tooltipInit TEvent.touchStart).mousePending = false ∧
    (tooltipStep tooltipInit TEvent.touchStart).kbPending = false ∧
    (tooltipStep tooltipInit TEvent.touchStart).touchPending = false ∧
    TEvent.contextMenu ≠ TEvent.mouseTimerFire ∧
    TEvent.contextMenu ≠ TEvent.kbTimerFire := by
  decide

/-- C2 (amended): the tooltip only becomes visible through the mouse timeout
callback firing while `initiated` is still `mouse`, the keyboard timeout
callback firing while `initiated` is still `keyboard`, or — in the touch
flow — synchronously from the `contextmenu` handler while a touch is in
progress. -/
theorem c2_show_only_guarded_timer_or_contextmenu (s : TooltipState)
    (e : TEvent) (h : (tooltipStep s e).visible = true) :
    s.visible = true ∨
    (e = TEvent.mouseTimerFire ∧ s.mousePending = true ∧
      s.initiated = some Mode.mouse) ∨
    (e = TEvent.kbTimerFire ∧ s.kbPending = true ∧
      s.initiated = some Mode.keyboard) ∨
    (e = TEvent.contextMenu ∧ s.touched = true) := by
  cases e with
  | mouseEnter =>
      rcases hi : s.initiated with _ | m <;>
        simp_all [tooltipStep]
  | mouseLeave =>
      by_cases hm : s.initiated = some Mode.mouse <;> simp_all [tooltipStep]
  | focus =>
      by_cases hb : s.isWindowBlurred = true <;> simp_all [tooltipStep]
  | blur => simp_all [tooltipStep]
  | keyDown key =>
      by_cases hk : s.initiated = some Mode.keyboard ∧ key = "Escape" <;>
        simp_all [tooltipStep]
  | touchStart => simp_all [tooltipStep]
  | touchMove => simp_all [tooltipStep]
  | contextMenu =>
      by_cases ht : s.touched = true <;> simp_all [tooltipStep]
  | touchEnd =>
      by_cases hv : s.visible = true <;> simp_all [tooltipStep]
  | mouseTimerFire =>
      by_cases hp : s.mousePending = true
      · by_cases hm : s.initiated = some Mode.mouse <;> simp_all [tooltipStep]
      · simp_all [tooltipStep]
  | kbTimerFire =>
      by_cases hp : s.kbPending = true
      · by_cases hm : s.initiated = some Mode.keyboard <;> simp_all [tooltipStep]
      · simp_all [tooltipStep]
  | touchTimerFire =>
      by_cases hp : s.touchPending = true <;> simp_all [tooltipStep]

/-- Witness for C2 (amended): a mouse timer firing while the tooltip is
mouse-initiated with the timer pending makes the tooltip visible, and the
theorem attributes the show to one of the three sanctioned transitions. -/
theorem c2_witness :
    (tooltipStep mouseReadyState TEvent.mouseTimerFire).visible = true ∧
    (mouseReadyState.visible = true ∨
      (TEvent.mouseTimerFire = TEvent.mouseTimerFire ∧
        mouseReadyState.mousePending = true ∧
        mouseReadyState.initiated = some Mode.mouse) ∨
      (TEvent.mouseTimerFire = TEvent.kbTimerFire ∧
        mouseReadyState.kbPending = true ∧
        mouseReadyState.initiated = some Mode.keyboard) ∨
      (TEvent.mouseTimerFire = TEvent.contextMenu ∧
        mouseReadyState.touched = true)) :=
  ⟨by decide,
   c2_show_only_guarded_timer_or_contextmenu mouseReadyState
     TEvent.mouseTimerFire (by decide)⟩

/-- C7: cancelling a pending tooltip show is exactly clearing its timer:
after a `mouseleave` while mouse-initiated, after a `blur`, or after an
Escape keydown while keyboard-initiated, the tooltip is not visible, the
corresponding show timer is no longer pending, and the now-cleared timeout
firing is a no-op, so the deferred `showTooltip` callback never runs for
that gesture. -/
theorem c7_cancel_clears_timer (s : TooltipState) :
    (s.initiated = some Mode.mouse →
      (tooltipStep s TEvent.mouseLeave).visible = false ∧
      (tooltipStep s TEvent.mouseLeave).mousePending = false ∧
      tooltipStep (tooltipStep s TEvent.mouseLeave) TEvent.mouseTimerFire =
        tooltipStep s TEvent.mouseLeave) ∧
    ((tooltipStep s TEvent.blur).visible = false ∧
      (tooltipStep s TEvent.blur).kbPending = false ∧
      tooltipStep (tooltipStep s TEvent.blur) TEvent.kbTimerFire =
        tooltipStep s TEvent.blur) ∧
    (s.initiated = some Mode.keyboard →
      (tooltipStep s (TEvent.keyDown "Escape")).visible = false ∧
      (tooltipStep s (TEvent.keyDown "Escape")).kbPending = false ∧
      tooltipStep (tooltipStep s (TEvent.keyDown "Escape")) TEvent.kbTimerFire =
        tooltipStep s (TEvent.keyDown "Escape")) := by
  refine ⟨fun h => ?_, ⟨?_, ?_, ?_⟩, fun h => ?_⟩
  · simp [tooltipStep, h]
  · simp [tooltipStep]
  · simp [tooltipStep]
  · simp [tooltipStep]
  · simp [tooltipStep, h]

/-- Witness for C7: the three cancellation paths at concrete states with the
relevant timers pending. -/
theorem c7_witness :
    ((tooltipStep mouseReadyState TEvent.mouseLeave).visible = false ∧
      (tooltipStep mouseReadyState TEvent.mouseLeave).mousePending = false ∧
      tooltipStep (tooltipStep mouseReadyState TEvent.mouseLeave)
          TEvent.mouseTimerFire =
        tooltipStep mouseReadyState TEvent.mouseLeave) ∧
    ((tooltipStep kbReadyState TEvent.blur).visible = false ∧
      (tooltipStep kbReadyState TEvent.blur).kbPending = false ∧
      tooltipStep (tooltipStep kbReadyState TEvent.blur) TEvent.kbTimerFire =
        tooltipStep kbReadyState TEvent.blur) ∧
    ((tooltipStep kbReadyState (TEvent.keyDown "Escape")).visible = false ∧
      (tooltipStep kbReadyState (TEvent.keyDown "Escape")).kbPending = false ∧
      tooltipStep (tooltipStep kbReadyState (TEvent.keyDown "Escape"))
          TEvent.kbTimerFire =
        tooltipStep kbReadyState (TEvent.keyDown "Escape")) :=
  ⟨(c7_cancel_clears_timer mouseReadyState).1 (by decide),
   (c7_cancel_clears_timer kbReadyState).2.1,
   (c7_cancel_clears_timer kbReadyState).2.2 (by decide)⟩

/-- C8: after every event, `initiated` is either unchanged or was written as
one of `some mouse`, `some keyboard`, `some touch` — each a member of the
spec's interaction-mode set {mouse, keyboard, touch, window, none} (`none`
standing for `null`), so the invariant holds after every event. -/
theorem c8_initiated_in_mode_set (s : TooltipState) (e : TEvent) :
    (tooltipStep s e).initiated = s.initiated ∨
    (tooltipStep s e).initiated = some Mode.mouse ∨
    (tooltipStep s e).initiated = some Mode.keyboard ∨
    (tooltipStep s e).initiated = some Mode.touch := by
  cases e with
  | mouseEnter => rcases hi : s.initiated with _ | m <;> simp [tooltipStep, hi]
  | keyDown key =>
      by_cases hk : s.initiated = some Mode.keyboard ∧ key = "Escape" <;>
        simp [tooltipStep, hk]
  | _ =>
      simp only [tooltipStep]
      (try split_ifs) <;> simp

/-- C4: for every merged event handler produced by the event-merge utilities
(tooltip mouse/keyboard/touch handlers, ripple handlers, keyboard click
polyfill) and every event, the caller-supplied handler is invoked first:
with the callback present, the handler's trace is the user callback followed
by exactly the internal transition it performs without a callback. -/
theorem c4_user_callback_invoked_first
    (initiated : TooltipInitiated) (isHoverModeable isWindowBlurred : Bool)
    (key tagName : String) (touched selectionInTarget : Bool)
    (disableSpacebarClick disableProgrammaticRipple
      activeElementIsTarget : Bool) :
    Tooltip.handleMouseEnter true initiated =
      Eff.userCallback :: Tooltip.handleMouseEnter false initiated ∧
    Tooltip.handleMouseLeave true initiated isHoverModeable =
      Eff.userCallback :: Tooltip.handleMouseLeave false initiated isHoverModeable ∧
    Tooltip.handleFocus true isWindowBlurred =
      Eff.userCallback :: Tooltip.handleFocus false isWindowBlurred ∧
    Tooltip.handleBlur true = Eff.userCallback :: Tooltip.handleBlur false ∧
    Tooltip.handleKeyDown true initiated key =
      Eff.userCallback :: Tooltip.handleKeyDown false initiated key ∧
    Tooltip.handleTouchStart true =
      Eff.userCallback :: Tooltip.handleTouchStart false ∧
    Tooltip.handleTouchMove true =
      Eff.userCallback :: Tooltip.handleTouchMove false ∧
    Tooltip.handleContextMenu true touched selectionInTarget =
      Eff.userCallback :: Tooltip.handleContextMenu false touched selectionInTarget ∧
    Ripple.onKeyDown true = Eff.userCallback :: Ripple.onKeyDown false ∧
    Ripple.onKeyUp true = Eff.userCallback :: Ripple.onKeyUp false ∧
    Ripple.onMouseDown true = Eff.userCallback :: Ripple.onMouseDown false ∧
    Ripple.onMouseUp true = Eff.userCallback :: Ripple.onMouseUp false ∧
    Ripple.onMouseLeave true = Eff.userCallback :: Ripple.onMouseLeave false ∧
    Ripple.onTouchStart true = Eff.userCallback :: Ripple.onTouchStart false ∧
    Ripple.onTouchMove true = Eff.userCallback :: Ripple.onTouchMove false ∧
    Ripple.onTouchEnd true = Eff.userCallback :: Ripple.onTouchEnd false ∧
    Ripple.onClick true disableProgrammaticRipple activeElementIsTarget =
      Eff.userCallback ::
        Ripple.onClick false disableProgrammaticRipple activeElementIsTarget ∧
    Polyfill.handleKeyDown true key tagName disableSpacebarClick =
      Eff.userCallback ::
        Polyfill.handleKeyDown false key tagName disableSpacebarClick := by
  repeat' apply And.intro
  all_goals
    simp [Tooltip.handleMouseEnter, Tooltip.handleMouseLeave,
      Tooltip.handleFocus, Tooltip.handleBlur, Tooltip.handleKeyDown,
      Tooltip.handleTouchStart, Tooltip.handleTouchMove,
      Tooltip.handleContextMenu, Ripple.onKeyDown, Ripple.onKeyUp,
      Ripple.onMouseDown, Ripple.onMouseUp, Ripple.onMouseLeave,
      Ripple.onTouchStart, Ripple.onTouchMove, Ripple.onTouchEnd,
      Ripple.onClick, Polyfill.handleKeyDown, userOnly]

/-- C5: for every merged handler, the caller-supplied callback is guarded by a
presence check, and its absence never prevents the internal transition: the
trace without a callback contains no user-callback invocation, and removing
the user-callback invocation from the trace with a callback yields exactly
the trace without one (the internal transition is identical). -/
theorem c5_absent_callback_same_transition
    (initiated : TooltipInitiated) (isHoverModeable isWindowBlurred : Bool)
    (key tagName : String) (touched selectionInTarget : Bool)
    (disableSpacebarClick disableProgrammaticRipple
      activeElementIsTarget : Bool) :
    (Eff.userCallback ∉ Tooltip.handleMouseEnter false initiated ∧
      (Tooltip.handleMouseEnter true initiated).erase Eff.userCallback =
        Tooltip.handleMouseEnter false initiated) ∧
    (Eff.userCallback ∉ Tooltip.handleMouseLeave false initiated isHoverModeable ∧
      (Tooltip.handleMouseLeave true initiated isHoverModeable).erase Eff.userCallback =
        Tooltip.handleMouseLeave false initiated isHoverModeable) ∧
    (Eff.userCallback ∉ Tooltip.handleFocus false isWindowBlurred ∧
      (Tooltip.handleFocus true isWindowBlurred).erase Eff.userCallback =
        Tooltip.handleFocus false isWindowBlurred) ∧
    (Eff.userCallback ∉ Tooltip.handleBlur false ∧
      (Tooltip.handleBlur true).erase Eff.userCallback = Tooltip.handleBlur false) ∧
    (Eff.userCallback ∉ Tooltip.handleKeyDown false initiated key ∧
      (Tooltip.handleKeyDown true initiated key).erase Eff.userCallback =
        Tooltip.handleKeyDown false initiated key) ∧
    (Eff.userCallback ∉ Tooltip.handleTouchStart false ∧
      (Tooltip.handleTouchStart true).erase Eff.userCallback =
        Tooltip.handleTouchStart false) ∧
    (Eff.userCallback ∉ Tooltip.handleTouchMove false ∧
      (Tooltip.handleTouchMove true).erase Eff.userCallback =
        Tooltip.handleTouchMove false) ∧
    (Eff.userCallback ∉ Tooltip.handleContextMenu false touched selectionInTarget ∧
      (Tooltip.handleContextMenu true touched selectionInTarget).erase Eff.userCallback =
        Tooltip.handleContextMenu false touched selectionInTarget) ∧
    (Eff.userCallback ∉ Ripple.onKeyDown false ∧
      (Ripple.onKeyDown true).erase Eff.userCallback = Ripple.onKeyDown false) ∧
    (Eff.userCallback ∉ Ripple.onKeyUp false ∧
      (Ripple.onKeyUp true).erase Eff.userCallback = Ripple.onKeyUp false) ∧
    (Eff.userCallback ∉ Ripple.onMouseDown false ∧
      (Ripple.onMouseDown true).erase Eff.userCallback = Ripple.onMouseDown false) ∧
    (Eff.userCallback ∉ Ripple.onMouseUp false ∧
      (Ripple.onMouseUp true).erase Eff.userCallback = Ripple.onMouseUp false) ∧
    (Eff.userCallback ∉ Ripple.onMouseLeave false ∧
      (Ripple.onMouseLeave true).erase Eff.userCallback = Ripple.onMouseLeave false) ∧
    (Eff.userCallback ∉ Ripple.onTouchStart false ∧
      (Ripple.onTouchStart true).erase Eff.userCallback = Ripple.onTouchStart false) ∧
    (Eff.userCallback ∉ Ripple.onTouchMove false ∧
      (Ripple.onTouchMove true).erase Eff.userCallback = Ripple.onTouchMove false) ∧
    (Eff.userCallback ∉ Ripple.onTouchEnd false ∧
      (Ripple.onTouchEnd true).erase Eff.userCallback = Ripple.onTouchEnd false) ∧
    (Eff.userCallback ∉
        Ripple.onClick false disableProgrammaticRipple activeElementIsTarget ∧
      (Ripple.onClick true disableProgrammaticRipple activeElementIsTarget).erase
          Eff.userCallback =
        Ripple.onClick false disableProgrammaticRipple activeElementIsTarget) ∧
    (Eff.userCallback ∉ Polyfill.handleKeyDown false key tagName disableSpacebarClick ∧
      (Polyfill.handleKeyDown true key tagName disableSpacebarClick).erase
          Eff.userCallback =
        Polyfill.handleKeyDown false key tagName disableSpacebarClick) := by
  repeat' apply And.intro
  all_goals rcases initiated with _ | m
  all_goals
    simp only [Tooltip.handleMouseEnter, Tooltip.handleMouseLeave,
      Tooltip.handleFocus, Tooltip.handleBlur, Tooltip.handleKeyDown,
      Tooltip.handleTouchStart, Tooltip.handleTouchMove,
      Tooltip.handleContextMenu, Ripple.onKeyDown, Ripple.onKeyUp,
      Ripple.onMouseDown, Ripple.onMouseUp, Ripple.onMouseLeave,
      Ripple.onTouchStart, Ripple.onTouchMove, Ripple.onTouchEnd,
      Ripple.onClick, Polyfill.handleKeyDown, userOnly]
  all_goals (try split_ifs)
  all_goals simp_all

/-- C6: within a single interaction gesture, ripple creation/release pairs are
idempotent: applying the trace of any down handler (`onMouseDown`,
`onTouchStart`, `onKeyDown`) or up handler (`onMouseUp`, `onTouchEnd`,
`onKeyUp`) twice to the gesture's ripple state yields the same state as
applying it once. -/
theorem c6_ripple_down_up_idempotent (hasCb : Bool) (s : Ripple.RippleState) :
    Ripple.applyTrace (Ripple.applyTrace s (Ripple.onMouseDown hasCb))
        (Ripple.onMouseDown hasCb) =
      Ripple.applyTrace s (Ripple.onMouseDown hasCb) ∧
    Ripple.applyTrace (Ripple.applyTrace s (Ripple.onTouchStart hasCb))
        (Ripple.onTouchStart hasCb) =
      Ripple.applyTrace s (Ripple.onTouchStart hasCb) ∧
    Ripple.applyTrace (Ripple.applyTrace s (Ripple.onKeyDown hasCb))
        (Ripple.onKeyDown hasCb) =
      Ripple.applyTrace s (Ripple.onKeyDown hasCb) ∧
    Ripple.applyTrace (Ripple.applyTrace s (Ripple.onMouseUp hasCb))
        (Ripple.onMouseUp hasCb) =
      Ripple.applyTrace s (Ripple.onMouseUp hasCb) ∧
    Ripple.applyTrace (Ripple.applyTrace s (Ripple.onTouchEnd hasCb))
        (Ripple.onTouchEnd hasCb) =
      Ripple.applyTrace s (Ripple.onTouchEnd hasCb) ∧
    Ripple.applyTrace (Ripple.applyTrace s (Ripple.onKeyUp hasCb))
        (Ripple.onKeyUp hasCb) =
      Ripple.applyTrace s (Ripple.onKeyUp hasCb) := by
  cases hasCb <;> rcases s with _ | p <;>
    simp [Ripple.applyTrace, Ripple.applyEff, Ripple.onMouseDown,
      Ripple.onTouchStart, Ripple.onKeyDown, Ripple.onMouseUp,
      Ripple.onTouchEnd, Ripple.onKeyUp, Ripple.create, Ripple.release,
      userOnly]

/-- C9: when the ripple effect is disabled (`disabled` or `disableRipple`),
`useRippleHandlers` returns exactly the caller-supplied handlers for every
event type, so no ripple create/release/cancel is ever triggered through the
returned handlers; and when `disableProgrammaticRipple` is set, the returned
`onClick` is likewise the caller-supplied handler. -/
theorem c9_disabled_returns_provided_handlers
    (propDisabled disableRipple disableProgrammaticRipple
      hasCb activeElementIsTarget : Bool) :
    ((propDisabled || disableRipple) = true →
      Ripple.useRippleHandlers propDisabled disableRipple
          disableProgrammaticRipple hasCb activeElementIsTarget =
        List.replicate 9 (userOnly hasCb) ∧
      ((Ripple.useRippleHandlers propDisabled disableRipple
            disableProgrammaticRipple hasCb activeElementIsTarget).all
          fun t => t.all fun e => !isRippleEff e) = true) ∧
    (disableProgrammaticRipple = true →
      Ripple.returnedOnClick propDisabled disableRipple
          disableProgrammaticRipple hasCb activeElementIsTarget =
        userOnly hasCb) := by
  constructor
  · intro h
    cases propDisabled <;> cases disableRipple <;> cases hasCb <;>
      simp_all [Ripple.useRippleHandlers, Ripple.returnedOnKeyDown,
        Ripple.returnedOnKeyUp, Ripple.returnedOnMouseDown,
        Ripple.returnedOnMouseUp, Ripple.returnedOnMouseLeave,
        Ripple.returnedOnTouchStart, Ripple.returnedOnTouchMove,
        Ripple.returnedOnTouchEnd, Ripple.returnedOnClick, userOnly,
        isRippleEff, List.replicate]
  · intro h
    subst h
    simp [Ripple.returnedOnClick]

/-- Witness for C9 at `disabled = true`, `disableRipple = false`,
`disableProgrammaticRipple = true`, with a caller-supplied handler present. -/
theorem c9_witness :
    (true || false) = true ∧
    (Ripple.useRippleHandlers true false true true false =
        List.replicate 9 (userOnly true) ∧
      ((Ripple.useRippleHandlers true false true true false).all
          fun t => t.all fun e => !isRippleEff e) = true) ∧
    Ripple.returnedOnClick true false true true false = userOnly true :=
  ⟨rfl,
   (c9_disabled_returns_provided_handlers true false true true false).1 rfl,
   (c9_disabled_returns_provided_handlers true false true true false).2 rfl⟩

/-- C10: the keyboard click polyfill triggers a synthetic click (with
`stopPropagation`, and `preventDefault` only for Space) exactly when the key
is Enter or Space, the target's tag is not BUTTON, the combination is not an
A element with Space, and not Space with `disableSpacebarClick`; for every
other keydown it performs nothing beyond invoking the user's `onKeyDown`; and
when `disabled` the returned handler is the provided `onKeyDown` (or nothing)
unchanged. -/
theorem c10_keyboard_click_polyfill (hasCb disabled disableSpacebarClick : Bool)
    (key tagName : String) :
    (Eff.click ∈ Polyfill.handleKeyDown hasCb key tagName disableSpacebarClick ↔
      Polyfill.clickCondition key tagName disableSpacebarClick) ∧
    (Polyfill.clickCondition key tagName disableSpacebarClick →
      Polyfill.handleKeyDown hasCb key tagName disableSpacebarClick =
        userOnly hasCb ++ (if key = " " then [Eff.preventDefault] else []) ++
          [Eff.stopPropagation, Eff.click]) ∧
    (¬Polyfill.clickCondition key tagName disableSpacebarClick →
      Polyfill.handleKeyDown hasCb key tagName disableSpacebarClick =
        userOnly hasCb) ∧
    (disabled = true →
      Polyfill.returned hasCb disabled key tagName disableSpacebarClick =
        userOnly hasCb) := by
  have hiff : ((key ≠ "Enter" ∧ ¬key = " ") ∨ tagName = "BUTTON" ∨
      (tagName = "A" ∧ key = " ") ∨ (key = " " ∧ disableSpacebarClick = true)) ↔
      ¬Polyfill.clickCondition key tagName disableSpacebarClick := by
    unfold Polyfill.clickCondition
    tauto
  refine ⟨?_, ?_, ?_, ?_⟩
  · unfold Polyfill.handleKeyDown
    by_cases hskip : (key ≠ "Enter" ∧ ¬key = " ") ∨ tagName = "BUTTON" ∨
        (tagName = "A" ∧ key = " ") ∨ (key = " " ∧ disableSpacebarClick = true)
    · rw [if_pos hskip]
      cases hasCb <;> simp [userOnly] <;> exact hiff.mp hskip
    · rw [if_neg hskip]
      have hcc := not_not.mp (mt hiff.mpr hskip)
      split_ifs <;> cases hasCb <;> simp [userOnly, hcc]
  · intro hcc
    have hskip : ¬((key ≠ "Enter" ∧ ¬key = " ") ∨ tagName = "BUTTON" ∨
        (tagName = "A" ∧ key = " ") ∨ (key = " " ∧ disableSpacebarClick = true)) :=
      fun hs => (hiff.mp hs) hcc
    unfold Polyfill.handleKeyDown
    rw [if_neg hskip]
    simp
  · intro hncc
    have hskip : (key ≠ "Enter" ∧ ¬key = " ") ∨ tagName = "BUTTON" ∨
        (tagName = "A" ∧ key = " ") ∨ (key = " " ∧ disableSpacebarClick = true) :=
      hiff.mpr hncc
    unfold Polyfill.handleKeyDown
    rw [if_pos hskip]
    simp
  · intro hd
    subst hd
    simp [Polyfill.returned]

/-- Witness for C10: Enter on a DIV fires the synthetic click, the letter q
does not, and a disabled polyfill returns only the provided handler. -/
theorem c10_witness :
    Polyfill.clickCondition "Enter" "DIV" false ∧
    Polyfill.handleKeyDown true "Enter" "DIV" false =
      userOnly true ++ (if ("Enter" : String) = " " then [Eff.preventDefault] else []) ++
        [Eff.stopPropagation, Eff.click] ∧
    ¬Polyfill.clickCondition "q" "DIV" false ∧
    Polyfill.handleKeyDown true "q" "DIV" false = userOnly true ∧
    Polyfill.returned true true "Enter" "DIV" false = userOnly true :=
  ⟨by decide,
   (c10_keyboard_click_polyfill true false false "Enter" "DIV").2.1 (by decide),
   by decide,
   (c10_keyboard_click_polyfill true false false "q" "DIV").2.2.1 (by decide),
   (c10_keyboard_click_polyfill true true false "Enter" "DIV").2.2.2 rfl⟩
